import Mathlib

/-!
Verification of the unlock/decrypt pipeline of the local-pdf-toolbox
repository, as a shallow embedding in Lean 4.

The repository has two implementations of the unlock contract:

* the External-Tool strategy: a Next.js API route handler (`POST` in
  `app/api/unlock/route.ts`) that validates the request, writes the upload
  to a uniquely named temp file, shells out to qpdf, and cleans both temp
  paths up in a `finally` block; and a legacy Express route
  (`app.post("/unlock")` in `backend/unlock-server.js`) that spawns qpdf
  with no validation and unlinks its temp files after responding;
* the Rasterize-Rebuild strategy (`unlockPdfInBrowser` with helpers
  `loadPdfJs` and `loadEncryptedPdf`): open the document with pdf.js using
  the password, render every page to a canvas at scale 2, embed each PNG
  into a fresh pdf-lib document, and save.

Each definition below mirrors one source function; external effects
(qpdf's exit status, pdf.js outcomes, unlink success) are supplied by an
environment record, and each modelled handler returns its outcome together
with an explicit trace of the effects it performed, in execution order.
-/

namespace PdfToolbox

/-! ## String utilities

The source classifies decoder errors with the regular expression
`/password/gi` (a case-insensitive substring test). We implement a
boolean substring check on character lists. -/

/-- Boolean test that `p` is a leading segment of `s`. -/
def leadsB : List Char → List Char → Bool
  | [], _ => true
  | _ :: _, [] => false
  | p :: ps, c :: cs => p == c && leadsB ps cs

/-- Boolean test that `p` occurs contiguously inside `s`. -/
def occursB (p : List Char) : List Char → Bool
  | [] => p.isEmpty
  | c :: cs => leadsB p (c :: cs) || occursB p cs

/-- Substring test on strings. -/
def strContains (s pat : String) : Bool :=
  occursB pat.toList s.toList

/-- Case-insensitive test for the substring "password", mirroring the
source's `/password/gi.test(error?.message || "")`. -/
def containsPasswordCI (s : String) : Bool :=
  occursB "password".toList (s.toList.map Char.toLower)

/-! ## External-Tool strategy: the Next.js API route (`POST`)

Source: `app/api/unlock/route.ts` (src/unnamed/part_005). The handler
validates the form fields, writes the upload to
`tmpdir()/pdf-input-<uuid>.pdf`, runs qpdf with
`--password=<password> --decrypt <in> <out>`, reads the output file back,
and in a `finally` block attempts to unlink both paths, ignoring unlink
errors. The model returns the HTTP response; it is produced only after
the `finally` block has run, so every event in the trace happens before
the outcome reaches the caller. -/

/-- Upper bound on the upload size: `100 * 1024 * 1024` in the source. -/
def MAX_FILE_SIZE : Nat := 100 * 1024 * 1024

/-- Outcome of the `execFileAsync(QPDF_BINARY_PATH, ...)` call: success,
rejection with `code === "ENOENT"` (binary not found), or any other
rejection carrying an optional captured stderr. -/
inductive QpdfOutcome where
  | ok
  | enoent
  | failed (stderr : Option String)
  deriving DecidableEq

/-- The request fields the handler inspects: whether `formData.get("pdf")`
is a `File`, its size, and `formData.get("password")` (`none` when the
field is absent or not a string). -/
structure ApiRequest where
  pdfIsFile : Bool
  pdfSize : Nat
  password : Option String
  deriving DecidableEq

/-- Environment of one request: the qpdf outcome, whether the temp write
and the output read succeed, whether each unlink succeeds, the random
UUID components of the two temp names, and the decrypted bytes qpdf
produces on success. -/
structure ApiEnv where
  qpdf : QpdfOutcome
  writeOk : Bool
  readOk : Bool
  unlinkInputOk : Bool
  unlinkOutputOk : Bool
  inputUuid : String
  outputUuid : String
  unlockedBytes : List Nat

/-- The uniquely named temp input path `tmpdir()/pdf-input-<uuid>.pdf`. -/
def inputPathOf (env : ApiEnv) : String :=
  "/tmp/pdf-input-" ++ env.inputUuid ++ ".pdf"

/-- The uniquely named temp output path `tmpdir()/pdf-output-<uuid>.pdf`. -/
def outputPathOf (env : ApiEnv) : String :=
  "/tmp/pdf-output-" ++ env.outputUuid ++ ".pdf"

/-- Body of an HTTP response: an error/text message or PDF bytes. -/
inductive ApiBody where
  | msg (s : String)
  | pdf (bytes : List Nat)
  deriving DecidableEq

/-- An HTTP response (status and body). -/
structure ApiResult where
  status : Nat
  body : ApiBody
  deriving DecidableEq

/-- External effects of the route handler, in execution order. `logError`
records a `console.error` call: the fixed prefix string the code passes,
the spawn argument list carried by the logged error object — Node's
`execFile` rejection exposes the full command, `--password=<password>`
included, through its `message` and `cmd` fields, and a spawn failure
such as ENOENT through its `spawnargs` field — empty when the logged
error is not an `execFile` error, and the captured stderr (when one
exists). -/
inductive ApiEvent where
  | tempWrite (path : String)
  | spawnTool (args : List String)
  | logError (prefixMsg : String) (loggedArgs : List String) (stderr : Option String)
  | unlinkTry (path : String) (ok : Bool)
  deriving DecidableEq

/-- The `finally` block: `[inputPath, outputPath].filter(Boolean)` mapped
over `fs.unlink`, each wrapped in a try/catch that ignores the error.
Both paths are assigned together before the write, so once validation
passes both unlinks are attempted on every exit path. -/
def finallyCleanup (env : ApiEnv) : List ApiEvent :=
  [ApiEvent.unlinkTry (inputPathOf env) env.unlinkInputOk,
   ApiEvent.unlinkTry (outputPathOf env) env.unlinkOutputOk]

/-- Message of the 400 response on a qpdf failure:
`error?.stderr?.toString() || "Failed to unlock PDF. ..."`. An absent or
empty stderr is falsy, so the generic message is used then. -/
def failedBodyMsg (stderr : Option String) : String :=
  match stderr with
  | some s => if s = "" then "Failed to unlock PDF. Wrong password or file is not encrypted." else s
  | none => "Failed to unlock PDF. Wrong password or file is not encrypted."

/-- The Next.js route handler `POST` of `app/api/unlock/route.ts`,
returning the response together with the trace of effects performed
before the response is returned. -/
def POST (req : ApiRequest) (env : ApiEnv) : ApiResult × List ApiEvent :=
  if ¬ req.pdfIsFile then
    (⟨400, ApiBody.msg "PDF file is required."⟩, [])
  else
    match req.password with
    | none => (⟨400, ApiBody.msg "Password is required."⟩, [])
    | some pw =>
      if pw.length = 0 then
        (⟨400, ApiBody.msg "Password is required."⟩, [])
      else if req.pdfSize = 0 then
        (⟨400, ApiBody.msg "The provided PDF is empty."⟩, [])
      else if req.pdfSize > MAX_FILE_SIZE then
        (⟨400, ApiBody.msg "PDF file is too large."⟩, [])
      else
        -- inputPath and outputPath are assigned here, before the write,
        -- so the finally block attempts both unlinks on every later path.
        let iP := inputPathOf env
        let oP := outputPathOf env
        if ¬ env.writeOk then
          (⟨500, ApiBody.msg "Unexpected error while unlocking PDF. Please try again."⟩,
           [ApiEvent.logError "Unexpected unlock error:" [] none] ++ finallyCleanup env)
        else
          let args := ["--password=" ++ pw, "--decrypt", iP, oP]
          let pre := [ApiEvent.tempWrite iP, ApiEvent.spawnTool args]
          match env.qpdf with
          | QpdfOutcome.enoent =>
            (⟨500, ApiBody.msg "qpdf binary not found. Set QPDF_BINARY_PATH to a valid executable."⟩,
             pre ++ [ApiEvent.logError "qpdf binary not found:" args none] ++ finallyCleanup env)
          | QpdfOutcome.failed stderr =>
            (⟨400, ApiBody.msg (failedBodyMsg stderr)⟩,
             pre ++ [ApiEvent.logError "Failed to unlock PDF:" args stderr] ++ finallyCleanup env)
          | QpdfOutcome.ok =>
            if env.readOk then
              (⟨200, ApiBody.pdf env.unlockedBytes⟩, pre ++ finallyCleanup env)
            else
              (⟨500, ApiBody.msg "Unexpected error while unlocking PDF. Please try again."⟩,
               pre ++ [ApiEvent.logError "Unexpected unlock error:" [] none] ++ finallyCleanup env)

/-- A request that passes all four validation checks. -/
def validReq (req : ApiRequest) : Prop :=
  req.pdfIsFile = true ∧
  (∃ pw, req.password = some pw ∧ pw ≠ "") ∧
  req.pdfSize ≠ 0 ∧ req.pdfSize ≤ MAX_FILE_SIZE

/-! ## External-Tool strategy: the legacy Express route

Source: `backend/unlock-server.js`, `app.post("/unlock")`. No input
validation; qpdf is spawned directly on the multer upload. On error the
route responds 400 and then calls `fs.unlinkSync(inputPath)` (unguarded;
the output file, if the tool created one, is never removed). On success
`res.download` streams the file and its completion callback then unlinks
input and output, also unguarded. -/

/-- Environment of one legacy request: whether qpdf succeeds, whether it
created the output file before failing, and whether each unlink succeeds
(`fs.unlinkSync` throws when it does not). -/
structure LegacyEnv where
  qpdfOk : Bool
  outputCreated : Bool
  unlinkInputOk : Bool
  unlinkOutputOk : Bool
  deriving DecidableEq

/-- Observable events of the legacy route. File `0` is the temp input,
file `1` is the temp output. `respond` marks the moment the outcome is
sent to the caller; `uncaughtThrow` marks an unlink failure escaping as
an exception. -/
inductive LegacyEvent where
  | spawnTool
  | log
  | respond (status : Nat)
  | unlinkDone (f : Nat)
  | uncaughtThrow
  deriving DecidableEq

/-- The legacy Express handler, as its event trace. -/
def appPostUnlock (env : LegacyEnv) : List LegacyEvent :=
  [LegacyEvent.spawnTool] ++
  (if env.qpdfOk then
    [LegacyEvent.respond 200] ++
    (if env.unlinkInputOk then
      [LegacyEvent.unlinkDone 0] ++
      (if env.unlinkOutputOk then [LegacyEvent.unlinkDone 1] else [LegacyEvent.uncaughtThrow])
    else [LegacyEvent.uncaughtThrow])
  else
    [LegacyEvent.log, LegacyEvent.respond 400] ++
    (if env.unlinkInputOk then [LegacyEvent.unlinkDone 0] else [LegacyEvent.uncaughtThrow]))

/-- Whether an event is the response being sent. -/
def LegacyEvent.isRespond : LegacyEvent → Bool
  | LegacyEvent.respond _ => true
  | _ => false

/-- Whether file `f` is deleted before the outcome is sent: some unlink
of `f` occurs in the trace strictly before the first `respond` event. -/
def deletedBeforeOutcome (tr : List LegacyEvent) (f : Nat) : Bool :=
  (tr.takeWhile (fun e => ¬ e.isRespond)).any (fun e => e == LegacyEvent.unlinkDone f)

/-! ## Rasterize-Rebuild strategy: the pdf.js loader (`loadPdfJs`)

Source: `lib/unlock-pdf.ts` section of `backend/unlock-server.js`. A
module-level `pdfJsLoader` promise caches the first script-load attempt;
`window.pdfjsLib` is the handle the CDN script installs on success. A
library handle is modelled as a `Nat` identifier. -/

/-- Decidable equality for `Except`, used to compare settled promise
values and run results. -/
instance {ε α : Type} [DecidableEq ε] [DecidableEq α] : DecidableEq (Except ε α) := fun x y =>
  match x, y with
  | Except.ok a, Except.ok b =>
    if h : a = b then isTrue (by rw [h]) else isFalse (by intro hc; cases hc; exact h rfl)
  | Except.ok _, Except.error _ => isFalse (by intro hc; cases hc)
  | Except.error _, Except.ok _ => isFalse (by intro hc; cases hc)
  | Except.error e, Except.error f =>
    if h : e = f then isTrue (by rw [h]) else isFalse (by intro hc; cases hc; exact h rfl)

/-- The module-level mutable state the loader reads and writes:
`window.pdfjsLib` (set by the CDN script on success) and the cached
`pdfJsLoader` promise, recorded here as its settled value. -/
structure LoaderState where
  windowPdfjsLib : Option Nat
  pdfJsLoader : Option (Except String Nat)
  deriving DecidableEq

/-- State before any load attempt: `let pdfJsLoader = null` and no
`window.pdfjsLib`. -/
def initialLoaderState : LoaderState :=
  { windowPdfjsLib := none, pdfJsLoader := none }

/-- Environment of one `loadPdfJs` call: whether `window` is defined, and
what a fresh script-load attempt would settle to (`.ok handle` when the
script loads and installs `window.pdfjsLib`; `.error msg` when the script
fails to load or installs nothing). -/
structure LoadEnv where
  windowDefined : Bool
  attemptResult : Except String Nat

/-- The `loadPdfJs` function: result, updated module state, and whether
this call actually appended a script element (performed a load). -/
def loadPdfJs (st : LoaderState) (env : LoadEnv) :
    Except String Nat × LoaderState × Bool :=
  if ¬ env.windowDefined then
    (Except.error "PDF.js can only be loaded in the browser.", st, false)
  else
    match st.windowPdfjsLib with
    | some h => (Except.ok h, st, false)
    | none =>
      match st.pdfJsLoader with
      | some r => (r, st, false)
      | none =>
        let r := env.attemptResult
        (r,
         { windowPdfjsLib := match r with | Except.ok h => some h | Except.error _ => none,
           pdfJsLoader := some r },
         true)

/-! ## Rasterize-Rebuild strategy: opening the document (`loadEncryptedPdf`)

Source: `loadEncryptedPdf` in the same module. It calls
`pdfjsLib.getDocument({data, password, passwordCallback})`; the callback
re-supplies the password on `NEED_PASSWORD` and throws the sentinel
`passwordError` (message "Incorrect password. Please verify and try
again.") otherwise. The catch block converts the sentinel, any error
named `PasswordException`, and any error whose message matches
`/password/gi` into the sentinel; every other error is rethrown. -/

/-- Message of the sentinel error built by `buildPasswordError`. -/
def buildPasswordErrorMsg : String :=
  "Incorrect password. Please verify and try again."

/-- How the decoder's `loadingTask.promise` settles: success, the
sentinel thrown from the password callback (the decoder reported an
incorrect password), or any other rejection with its name and message. -/
inductive DecoderOutcome where
  | ok
  | raisedSentinel
  | raised (name : String) (msg : String)
  deriving DecidableEq

/-- Errors the Rasterize-Rebuild strategy can surface. `wrongPassword` is
the sentinel `passwordError`; `openError` is any other open failure,
rethrown unchanged; `renderFailed` is a failure inside page
`pageNumber`'s render/encode/embed steps; `saveFailed` is a failure of
the final `pdfDoc.save()`. -/
inductive UnlockError where
  | loadFailed (msg : String)
  | wrongPassword
  | openError (name : String) (msg : String)
  | renderFailed (pageNumber : Nat)
  | saveFailed
  deriving DecidableEq

/-- The catch-block classification of `loadEncryptedPdf`: the result of
awaiting the loading task, with decoder errors classified. -/
def loadEncryptedPdf : DecoderOutcome → Except UnlockError Unit
  | DecoderOutcome.ok => Except.ok ()
  | DecoderOutcome.raisedSentinel => Except.error UnlockError.wrongPassword
  | DecoderOutcome.raised nm msg =>
    if nm = "PasswordException" || containsPasswordCI msg then
      Except.error UnlockError.wrongPassword
    else
      Except.error (UnlockError.openError nm msg)

/-! ## Rasterize-Rebuild strategy: the unlock operation (`unlockPdfInBrowser`)

Source: `unlockPdfInBrowser`. After `loadPdfJs` and the open step it
loops `pageNumber` from 1 to `pdfDocument.numPages`; for each page it
first reports progress `30 + Math.round((pageNumber / totalPages) * 50)`,
then renders the page at `getViewport({scale: 2})` onto a canvas, encodes
it as PNG, embeds it, and adds an output page sized
`[viewport.width, viewport.height]`. Any thrown error propagates and
aborts the whole call. Page sizes are modelled as natural numbers; the
environment decides which per-page steps succeed. -/

/-- One source page: its base (scale 1) viewport dimensions. -/
structure PageSpec where
  baseW : Nat
  baseH : Nat
  deriving DecidableEq

/-- Dimensions of `page.getViewport({scale})`: the base size multiplied
by the scale factor. -/
def viewportDims (scale : Nat) (p : PageSpec) : Nat × Nat :=
  (scale * p.baseW, scale * p.baseH)

/-- JavaScript's `Math.round (a / b)` on nonnegative rationals:
half-up rounding, computed as `⌊(2a + b) / (2b)⌋`. -/
def jsRound (a b : Nat) : Nat :=
  (2 * a + b) / (2 * b)

/-- Environment of one `unlockPdfInBrowser` call: how `loadPdfJs`
settles, how the decoder's open settles (this encodes the decoder's
response to the supplied bytes and password), the source pages, which
page loop iterations succeed (`pageOk k = false` when the render, canvas,
PNG encode, or embed step of page `k` throws), and whether the final
`pdfDoc.save()` succeeds. -/
structure BrowserEnv where
  load : Except String Nat
  open_ : DecoderOutcome
  pages : List PageSpec
  pageOk : Nat → Bool
  saveOk : Bool

/-- Observable actions of one call: the library load resolving, the
decoder's `getDocument` being invoked, each page render, the final
document save. -/
inductive BrowserEv where
  | libLoad
  | decoderOpen
  | renderPage (pageNumber : Nat)
  | docSave
  deriving DecidableEq

/-- Result of one call: result (output page dimensions on success),
progress reports passed to the `updateProgress` sink in order, and the
action trace. -/
structure BrowserRun where
  result : Except UnlockError (List (Nat × Nat))
  progress : List (Nat × String)
  events : List BrowserEv
  deriving DecidableEq

/-- The progress report emitted at the top of iteration `k` of `N`:
`30 + Math.round((k / N) * 50)` with the "Rendering page k of N..."
label. -/
def pageEvent (N k : Nat) : Nat × String :=
  (30 + jsRound (k * 50) N,
   "Rendering page " ++ toString k ++ " of " ++ toString N ++ "...")

/-- Output page size of iteration `k`: the viewport of source page `k`
(1-based) at scale 2, used both for the canvas and for
`pdfDoc.addPage([viewport.width, viewport.height])`. -/
def pageDims (env : BrowserEnv) (k : Nat) : Nat × Nat :=
  viewportDims 2 (env.pages.getD (k - 1) ⟨0, 0⟩)

/-- The page loop over the listed page numbers `ks` (each iteration
emits its progress report first, then either renders and embeds the page
or throws, aborting the rest of the loop). -/
def processPages (env : BrowserEnv) (N : Nat) :
    List Nat → Except UnlockError (List (Nat × Nat)) × List (Nat × String) × List BrowserEv
  | [] => (Except.ok [], [], [])
  | k :: rest =>
    if env.pageOk k then
      match processPages env N rest with
      | (Except.ok dims, pr, evs) =>
        (Except.ok (pageDims env k :: dims), pageEvent N k :: pr, BrowserEv.renderPage k :: evs)
      | (Except.error e, pr, evs) =>
        (Except.error e, pageEvent N k :: pr, BrowserEv.renderPage k :: evs)
    else
      (Except.error (UnlockError.renderFailed k), [pageEvent N k], [BrowserEv.renderPage k])

/-- The `unlockPdfInBrowser` function. The `fileSize` and `password`
arguments mirror the source signature; the body performs no validation
on them (the decoder's reaction to them is encoded in `env.open_`). -/
def unlockPdfInBrowser (_fileSize : Nat) (_password : String) (env : BrowserEnv) : BrowserRun :=
  match env.load with
  | Except.error m => ⟨Except.error (UnlockError.loadFailed m), [], []⟩
  | Except.ok _ =>
    let ev0 : Nat × String := (30, "Decrypting PDF...")
    match loadEncryptedPdf env.open_ with
    | Except.error e => ⟨Except.error e, [ev0], [BrowserEv.libLoad, BrowserEv.decoderOpen]⟩
    | Except.ok _ =>
      let N := env.pages.length
      match processPages env N (List.range' 1 N) with
      | (Except.error e, pr, evs) =>
        ⟨Except.error e, ev0 :: pr, BrowserEv.libLoad :: BrowserEv.decoderOpen :: evs⟩
      | (Except.ok dims, pr, evs) =>
        if env.saveOk then
          ⟨Except.ok dims,
           ev0 :: pr ++ [(90, "Preparing unlocked PDF..."), (100, "Complete!")],
           BrowserEv.libLoad :: BrowserEv.decoderOpen :: evs ++ [BrowserEv.docSave]⟩
        else
          ⟨Except.error UnlockError.saveFailed,
           ev0 :: pr ++ [(90, "Preparing unlocked PDF...")],
           BrowserEv.libLoad :: BrowserEv.decoderOpen :: evs⟩

/-! ## Trace extractors and concrete environments used in the theorems -/

/-- The page numbers whose loop iteration actually ran: all of `ks` when
every iteration succeeds, otherwise the iterations up to and including
the first failing page. `processPages` emits exactly one progress report
and one render action per element of this list. -/
def runPages (env : BrowserEnv) : List Nat → List Nat
  | [] => []
  | k :: rest => if env.pageOk k then k :: runPages env rest else [k]

/-- The page numbers rendered during a run, in order. -/
def pagesRendered (run : BrowserRun) : List Nat :=
  run.events.filterMap (fun e =>
    match e with
    | BrowserEv.renderPage k => some k
    | _ => none)

/-- A two-page browser environment in which everything succeeds. -/
def happyEnv2 : BrowserEnv :=
  ⟨Except.ok 1, DecoderOutcome.ok, [⟨10, 20⟩, ⟨30, 40⟩], fun _ => true, true⟩

/-- A three-page browser environment in which everything succeeds. -/
def happyEnv3 : BrowserEnv :=
  ⟨Except.ok 1, DecoderOutcome.ok, [⟨10, 20⟩, ⟨30, 40⟩, ⟨50, 60⟩], fun _ => true, true⟩

/-- A 101-page browser environment in which everything succeeds. -/
def happyEnv101 : BrowserEnv :=
  ⟨Except.ok 1, DecoderOutcome.ok, List.replicate 101 ⟨1, 1⟩, fun _ => true, true⟩

/-- A two-page browser environment whose second page's render step
throws. -/
def failEnv2 : BrowserEnv :=
  ⟨Except.ok 1, DecoderOutcome.ok, [⟨10, 20⟩, ⟨30, 40⟩], fun k => k != 2, true⟩

/-- A request that passes validation. -/
def okReq : ApiRequest := ⟨true, 5, some "hunter2"⟩

/-- An API environment with the given qpdf outcome and everything else
succeeding. -/
def baseApiEnv (q : QpdfOutcome) : ApiEnv :=
  ⟨q, true, true, true, true, "aaaa", "bbbb", [1, 2, 3]⟩

/-- A browser environment for a zero-byte document: the decoder rejects
it with pdf.js's invalid-structure error. -/
def emptyDocEnv : BrowserEnv :=
  ⟨Except.ok 1, DecoderOutcome.raised "InvalidPDFException" "Invalid PDF structure",
   [], fun _ => true, true⟩

/-- An API environment in which qpdf fails and its captured stderr —
as qpdf actually prints it — names the temporary input file. -/
def leakEnv : ApiEnv :=
  ⟨QpdfOutcome.failed (some "qpdf: /tmp/pdf-input-123e4567.pdf: invalid password"),
   true, true, true, true, "123e4567", "89ab", []⟩

/-! ## Helper lemmas -/

lemma jsRound_mono {a b N : Nat} (h : a ≤ b) : jsRound a N ≤ jsRound b N :=
  Nat.div_le_div_right (by omega)

lemma jsRound_le_50 {k N : Nat} (hN : 0 < N) (hk : k ≤ N) : jsRound (k * 50) N ≤ 50 := by
  have h51 : jsRound (k * 50) N < 51 := by
    rw [jsRound, Nat.div_lt_iff_lt_mul (by omega)]
    omega
  omega

lemma jsRound_self (N : Nat) (hN : 0 < N) : jsRound (N * 50) N = 50 := by
  have h1 : jsRound (N * 50) N ≤ 50 := jsRound_le_50 hN le_rfl
  have h2 : 50 ≤ jsRound (N * 50) N := by
    rw [jsRound, Nat.le_div_iff_mul_le (by omega)]
    omega
  omega

lemma pageEvent_fst (N k : Nat) : (pageEvent N k).1 = 30 + jsRound (k * 50) N := rfl

lemma pageEvent_fst_le {N k : Nat} (hN : 0 < N) (hk : k ≤ N) : (pageEvent N k).1 ≤ 80 := by
  rw [pageEvent_fst]
  have := jsRound_le_50 hN hk
  omega

lemma le_pageEvent_fst (N k : Nat) : 30 ≤ (pageEvent N k).1 := by
  rw [pageEvent_fst]; omega

lemma pageEvent_fst_lt_iff {N k : Nat} (hN : 0 < N) : 30 < (pageEvent N k).1 ↔ N ≤ 100 * k := by
  rw [pageEvent_fst]
  constructor
  · intro h
    have h1 : 1 ≤ jsRound (k * 50) N := by omega
    rw [jsRound, Nat.one_le_div_iff (by omega)] at h1
    omega
  · intro h
    have h1 : 1 ≤ jsRound (k * 50) N := by
      rw [jsRound, Nat.one_le_div_iff (by omega)]
      omega
    omega

lemma processPages_progress (env : BrowserEnv) (N : Nat) :
    ∀ ks : List Nat, (processPages env N ks).2.1 = (runPages env ks).map (pageEvent N)
  | [] => rfl
  | k :: rest => by
    by_cases h : env.pageOk k = true
    · rcases hpp : processPages env N rest with ⟨r, pr, evs⟩
      have ih := processPages_progress env N rest
      rw [hpp] at ih
      simp only at ih
      cases r <;>
        simp [processPages, runPages, h, hpp, ih]
    · simp at h
      simp [processPages, runPages, h]

lemma processPages_events (env : BrowserEnv) (N : Nat) :
    ∀ ks : List Nat, (processPages env N ks).2.2 = (runPages env ks).map BrowserEv.renderPage
  | [] => rfl
  | k :: rest => by
    by_cases h : env.pageOk k = true
    · rcases hpp : processPages env N rest with ⟨r, pr, evs⟩
      have ih := processPages_events env N rest
      rw [hpp] at ih
      simp only at ih
      cases r <;>
        simp [processPages, runPages, h, hpp, ih]
    · simp at h
      simp [processPages, runPages, h]

lemma runPages_sublist (env : BrowserEnv) :
    ∀ ks : List Nat, List.Sublist (runPages env ks) ks
  | [] => List.Sublist.refl []
  | k :: rest => by
    by_cases h : env.pageOk k = true
    · simpa [runPages, h] using (runPages_sublist env rest).cons₂ k
    · simp at h
      simp only [runPages, h, if_false, Bool.false_eq_true]
      exact (List.nil_sublist rest).cons₂ k

lemma runPages_allOk (env : BrowserEnv) :
    ∀ ks : List Nat, (∀ k ∈ ks, env.pageOk k = true) → runPages env ks = ks
  | [], _ => rfl
  | k :: rest, h => by
    have hk := h k (List.mem_cons_self k rest)
    simp [runPages, hk, runPages_allOk env rest (fun x hx => h x (List.mem_cons_of_mem k hx))]

lemma runPages_ne_nil (env : BrowserEnv) (k : Nat) (rest : List Nat) :
    runPages env (k :: rest) ≠ [] := by
  by_cases h : env.pageOk k = true <;> simp [runPages, h]

lemma processPages_allOk (env : BrowserEnv) (N : Nat) :
    ∀ ks : List Nat, (∀ k ∈ ks, env.pageOk k = true) →
      processPages env N ks =
        (Except.ok (ks.map (pageDims env)), ks.map (pageEvent N), ks.map BrowserEv.renderPage)
  | [], _ => rfl
  | k :: rest, h => by
    have hk := h k (List.mem_cons_self k rest)
    have ih := processPages_allOk env N rest (fun x hx => h x (List.mem_cons_of_mem k hx))
    simp [processPages, hk, ih]

lemma processPages_ok_allOk (env : BrowserEnv) (N : Nat) :
    ∀ (ks : List Nat) (dims : List (Nat × Nat)),
      (processPages env N ks).1 = Except.ok dims →
      (∀ k ∈ ks, env.pageOk k = true) ∧ dims = ks.map (pageDims env)
  | [], dims, h => by
    simp [processPages] at h
    simp [h.symm]
  | k :: rest, dims, h => by
    by_cases hk : env.pageOk k = true
    · rcases hpp : processPages env N rest with ⟨r, pr, evs⟩
      rw [processPages, if_pos hk, hpp] at h
      cases r with
      | error e => simp at h
      | ok ds =>
        simp at h
        have ih := processPages_ok_allOk env N rest ds (by rw [hpp])
        refine ⟨fun x hx => ?_, ?_⟩
        · rcases List.mem_cons.mp hx with hx | hx
          · rw [hx]; exact hk
          · exact ih.1 x hx
        · simp [h.symm, ih.2]
    · simp at hk
      rw [processPages, if_neg (by simp [hk])] at h
      simp at h

lemma mem_fst_progress_le {env : BrowserEnv} {N x : Nat}
    (hx : x ∈ ((runPages env (List.range' 1 N)).map (pageEvent N)).map Prod.fst) :
    30 ≤ x ∧ x ≤ 80 := by
  rw [List.map_map] at hx
  rcases List.mem_map.mp hx with ⟨k, hk, rfl⟩
  have hkr := (runPages_sublist env (List.range' 1 N)).subset hk
  rw [List.mem_range'_1] at hkr
  exact ⟨le_pageEvent_fst N k, pageEvent_fst_le (by omega) (by omega)⟩

lemma pairwise_progress (env : BrowserEnv) (N : Nat) (s : List Nat)
    (hs : List.Pairwise (· ≤ ·) s) (h80 : ∀ x ∈ s, 80 ≤ x) :
    List.Pairwise (· ≤ ·)
      (30 :: (((runPages env (List.range' 1 N)).map (pageEvent N)).map Prod.fst ++ s)) := by
  rw [List.pairwise_cons]
  constructor
  · intro y hy
    rcases List.mem_append.mp hy with hy | hy
    · exact (mem_fst_progress_le hy).1
    · have := h80 y hy; omega
  · rw [List.pairwise_append]
    refine ⟨?_, hs, ?_⟩
    · rw [List.map_map, List.pairwise_map]
      have hlt : List.Pairwise (· < ·) (runPages env (List.range' 1 N)) :=
        List.Pairwise.sublist (runPages_sublist env (List.range' 1 N))
          (List.pairwise_lt_range' 1 N)
      refine hlt.imp ?_
      intro a b hab
      simp only [Function.comp_apply, pageEvent_fst]
      have := jsRound_mono (N := N) (a := a * 50) (b := b * 50) (by omega)
      omega
    · intro a ha b hb
      have h1 := (mem_fst_progress_le ha).2
      have h2 := h80 b hb
      omega

lemma getLast?_ne_100 {l : List Nat} (h : ∀ x ∈ l, x ≤ 90) : l.getLast? ≠ some 100 := by
  cases l with
  | nil => simp
  | cons a t =>
    rw [List.getLast?_eq_getLast_of_ne_nil (by simp)]
    intro hc
    have hm : (a :: t).getLast (by simp) ∈ a :: t := List.getLast_mem _
    have hb := h _ hm
    simp only [Option.some.injEq] at hc
    omega

lemma mem_cons_append_le {X : List Nat} {s : List Nat}
    (hX : ∀ x ∈ X, x ≤ 80) (hs : ∀ x ∈ s, x ≤ 90) :
    ∀ x ∈ 30 :: (X ++ s), x ≤ 90 := by
  intro x hx
  rcases List.mem_cons.mp hx with rfl | hx
  · omega
  · rcases List.mem_append.mp hx with hx | hx
    · have := hX x hx; omega
    · exact hs x hx

/-! ## Claim theorems -/

/-- C6: for every Rasterize-Rebuild unlock call, the sequence of progress
percentages passed to the progress sink is non-decreasing, and it ends
with a 100 event if and only if the call succeeds (returns result
bytes). -/
theorem C6_progress_monotone_and_terminal (fs : Nat) (pw : String) (env : BrowserEnv) :
    List.Pairwise (· ≤ ·) ((unlockPdfInBrowser fs pw env).progress.map Prod.fst) ∧
    (((unlockPdfInBrowser fs pw env).progress.map Prod.fst).getLast? = some 100 ↔
      (unlockPdfInBrowser fs pw env).result.isOk = true) := by
  rcases hld : env.load with m | hnd
  · simp [unlockPdfInBrowser, hld, Except.isOk, Except.toBool]
  · rcases hop : loadEncryptedPdf env.open_ with e | u
    · simp [unlockPdfInBrowser, hld, hop, Except.isOk, Except.toBool]
    · rcases hpp : processPages env env.pages.length (List.range' 1 env.pages.length)
        with ⟨r, pr, evs⟩
      have hpr : pr =
          (runPages env (List.range' 1 env.pages.length)).map (pageEvent env.pages.length) := by
        have h := processPages_progress env env.pages.length (List.range' 1 env.pages.length)
        rw [hpp] at h
        exact h
      have hXle : ∀ x ∈ pr.map Prod.fst, x ≤ 80 := by
        intro x hx
        rw [hpr] at hx
        exact (mem_fst_progress_le hx).2
      cases r with
      | error e =>
        simp only [unlockPdfInBrowser, hld, hop, hpp, List.map_cons, List.map_map,
          Except.isOk, Except.toBool]
        constructor
        · have h := pairwise_progress env env.pages.length [] (by simp) (by simp)
          rw [List.append_nil] at h
          rw [hpr]
          simpa [List.map_map] using h
        · constructor
          · intro hc
            exact absurd hc (getLast?_ne_100 (by
              have := mem_cons_append_le (X := pr.map Prod.fst) (s := []) hXle (by simp)
              rw [List.append_nil] at this
              simpa [List.map_map] using this))
          · intro hc
            cases hc
      | ok dims =>
        by_cases hsv : env.saveOk
        · simp only [unlockPdfInBrowser, hld, hop, hpp, hsv, if_true, List.map_cons,
            List.map_append, Except.isOk]
          constructor
          · have h := pairwise_progress env env.pages.length [90, 100]
              (by simp) (by intro x hx; simp at hx; omega)
            rw [hpr]
            simpa [List.map_map] using h
          · constructor
            · intro _; rfl
            · intro _
              rw [List.getLast?_append_cons]
              rfl
        · simp only [unlockPdfInBrowser, hld, hop, hpp, hsv, if_false, List.map_cons,
            List.map_append, Except.isOk]
          constructor
          · have h := pairwise_progress env env.pages.length [90]
              (by simp) (by intro x hx; simp at hx; omega)
            rw [hpr]
            simpa [List.map_map] using h
          · constructor
            · intro hc
              exact absurd hc (getLast?_ne_100 (by
                have := mem_cons_append_le (X := pr.map Prod.fst) (s := [90]) hXle
                  (by intro x hx; simp at hx; omega)
                simpa [List.map_map] using this))
            · intro hc
              cases hc

lemma length_ne_zero_of_ne_empty {s : String} (h : s ≠ "") : ¬ s.length = 0 := by
  intro hl
  apply h
  apply String.ext
  have h2 : s.data.length = 0 := hl
  exact List.length_eq_zero.mp h2

lemma map_pageDims_getD (env : BrowserEnv) :
    ∀ (N s i : Nat), i < N →
      ((List.range' s N).map (pageDims env)).getD i (0, 0) = pageDims env (s + i) := by
  intro N
  induction N with
  | zero => intro s i hi; omega
  | succ n ih =>
    intro s i hi
    rw [List.range'_succ, List.map_cons]
    cases i with
    | zero => simp
    | succ j =>
      rw [List.getD_cons_succ]
      have := ih (s + 1) j (by omega)
      rw [this]
      congr 1
      omega

/-- C5: for every successful Rasterize-Rebuild unlock of an N-page
source document, the output document has exactly N pages, produced by
processing pages strictly in increasing page-number order with no page
skipped or duplicated, and output page i has the size of source page i's
viewport at the fixed scale 2. -/
theorem C5_success_page_correspondence (fs : Nat) (pw : String) (env : BrowserEnv)
    (ds : List (Nat × Nat))
    (h : (unlockPdfInBrowser fs pw env).result = Except.ok ds) :
    ds.length = env.pages.length ∧
    (∀ i, i < env.pages.length →
      ds.getD i (0, 0) = viewportDims 2 (env.pages.getD i ⟨0, 0⟩)) ∧
    pagesRendered (unlockPdfInBrowser fs pw env) = List.range' 1 env.pages.length ∧
    List.Pairwise (· < ·) (pagesRendered (unlockPdfInBrowser fs pw env)) := by
  rcases hld : env.load with m | hnd
  · rw [unlockPdfInBrowser] at h
    simp [hld] at h
  · rcases hop : loadEncryptedPdf env.open_ with e | u
    · rw [unlockPdfInBrowser] at h
      simp [hld, hop] at h
    · rcases hpp : processPages env env.pages.length (List.range' 1 env.pages.length)
        with ⟨r, pr, evs⟩
      cases r with
      | error e =>
        rw [unlockPdfInBrowser] at h
        simp [hld, hop, hpp] at h
      | ok dims =>
        by_cases hsv : env.saveOk
        · have hds : ds = dims := by
            rw [unlockPdfInBrowser] at h
            simp [hld, hop, hpp, hsv] at h
            exact h.symm
          have hok := processPages_ok_allOk env env.pages.length
            (List.range' 1 env.pages.length) dims (by rw [hpp])
          have hdims : dims = (List.range' 1 env.pages.length).map (pageDims env) := hok.2
          have hevs : evs = (List.range' 1 env.pages.length).map BrowserEv.renderPage := by
            have he := processPages_events env env.pages.length (List.range' 1 env.pages.length)
            rw [hpp] at he
            simp only at he
            rw [he, runPages_allOk env _ hok.1]
          have hlen : ds.length = env.pages.length := by
            rw [hds, hdims, List.length_map, List.length_range']
          have hpages : pagesRendered (unlockPdfInBrowser fs pw env) =
              List.range' 1 env.pages.length := by
            rw [pagesRendered]
            have hev : (unlockPdfInBrowser fs pw env).events =
                BrowserEv.libLoad :: BrowserEv.decoderOpen :: evs ++ [BrowserEv.docSave] := by
              rw [unlockPdfInBrowser]
              simp [hld, hop, hpp, hsv]
            rw [hev, hevs]
            simp only [List.filterMap_cons, List.filterMap_append, List.filterMap_map]
            have hcomp : ((fun e => match e with
                | BrowserEv.renderPage k => some k
                | _ => none) ∘ BrowserEv.renderPage) = (fun k : Nat => some k) := by
              funext k; rfl
            rw [hcomp]
            simp
          refine ⟨hlen, ?_, hpages, by rw [hpages]; exact List.pairwise_lt_range' 1 _⟩
          · intro i hi
            rw [hds, hdims, map_pageDims_getD env env.pages.length 1 i hi, pageDims]
            have harg : 1 + i - 1 = i := by omega
            rw [harg]
        · rw [unlockPdfInBrowser] at h
          simp [hld, hop, hpp, hsv] at h

/-- Witness for C5: a concrete successful two-page unlock, with both
output pages at the scale-2 viewport sizes and pages rendered in order
1, 2. -/
theorem C5_success_page_correspondence_witness :
    (unlockPdfInBrowser 7 "pw" happyEnv2).result = Except.ok [(20, 40), (60, 80)] ∧
    pagesRendered (unlockPdfInBrowser 7 "pw" happyEnv2) = List.range' 1 happyEnv2.pages.length :=
  ⟨by decide,
   (C5_success_page_correspondence 7 "pw" happyEnv2 [(20, 40), (60, 80)] (by decide)).2.2.1⟩

/-- C8: a failure inside any specific page's render/embed step aborts
the whole Rasterize-Rebuild operation: the call signals an error, no
result bytes are returned, and the output document is never saved, so
the caller never receives a partial document. -/
theorem C8_page_failure_aborts (fs : Nat) (pw : String) (env : BrowserEnv) (j : Nat)
    (hj : j ∈ List.range' 1 env.pages.length) (hfail : env.pageOk j = false) :
    (∃ e, (unlockPdfInBrowser fs pw env).result = Except.error e) ∧
    (∀ ds, (unlockPdfInBrowser fs pw env).result ≠ Except.ok ds) ∧
    BrowserEv.docSave ∉ (unlockPdfInBrowser fs pw env).events := by
  have hmain : (∃ e, (unlockPdfInBrowser fs pw env).result = Except.error e) ∧
      BrowserEv.docSave ∉ (unlockPdfInBrowser fs pw env).events := by
    rcases hld : env.load with m | hnd
    · rw [unlockPdfInBrowser]
      simp [hld]
    · rcases hop : loadEncryptedPdf env.open_ with e | u
      · rw [unlockPdfInBrowser]
        simp [hld, hop]
      · rcases hpp : processPages env env.pages.length (List.range' 1 env.pages.length)
          with ⟨r, pr, evs⟩
        have hevs : evs =
            (runPages env (List.range' 1 env.pages.length)).map BrowserEv.renderPage := by
          have he := processPages_events env env.pages.length (List.range' 1 env.pages.length)
          rw [hpp] at he
          exact he
        cases r with
        | error e =>
          rw [unlockPdfInBrowser]
          simp only [hld, hop, hpp]
          refine ⟨⟨e, rfl⟩, ?_⟩
          rw [hevs]
          simp [List.mem_map]
        | ok dims =>
          exfalso
          have hok := processPages_ok_allOk env env.pages.length
            (List.range' 1 env.pages.length) dims (by rw [hpp])
          have := hok.1 j hj
          rw [hfail] at this
          cases this
  refine ⟨hmain.1, ?_, hmain.2⟩
  intro ds hds
  rcases hmain.1 with ⟨e, he⟩
  rw [hds] at he
  cases he

/-- Witness for C8: a concrete two-page run whose second page's render
step throws signals an error. -/
theorem C8_page_failure_aborts_witness :
    (2 ∈ List.range' 1 failEnv2.pages.length) ∧
    (∃ e, (unlockPdfInBrowser 3 "pw" failEnv2).result = Except.error e) :=
  ⟨by decide, (C8_page_failure_aborts 3 "pw" failEnv2 2 (by decide) (by decide)).1⟩

/-- C9 (amended): for every successful Rasterize-Rebuild unlock of an
N-page document, exactly one per-page progress event is emitted per
page, with percentage `30 + round(i / N * 50)` for page i; each such
percentage is at least 30 and at most 80 (hence strictly below 90), and
it is strictly above 30 exactly when `N ≤ 100 * i` — in particular for
every page when N is at most 100. The claim's unconditional "strictly
between 30 and 90" fails for documents of more than 100 pages. -/
theorem C9_per_page_progress (fs : Nat) (pw : String) (env : BrowserEnv)
    (ds : List (Nat × Nat))
    (h : (unlockPdfInBrowser fs pw env).result = Except.ok ds) :
    (unlockPdfInBrowser fs pw env).progress =
      (30, "Decrypting PDF...") ::
        (List.range' 1 env.pages.length).map (pageEvent env.pages.length) ++
        [(90, "Preparing unlocked PDF..."), (100, "Complete!")] ∧
    (∀ k, 1 ≤ k → k ≤ env.pages.length →
      (pageEvent env.pages.length k).1 = 30 + jsRound (k * 50) env.pages.length ∧
      30 ≤ (pageEvent env.pages.length k).1 ∧
      (pageEvent env.pages.length k).1 ≤ 80 ∧
      (30 < (pageEvent env.pages.length k).1 ↔ env.pages.length ≤ 100 * k)) := by
  constructor
  · rcases hld : env.load with m | hnd
    · rw [unlockPdfInBrowser] at h
      simp [hld] at h
    · rcases hop : loadEncryptedPdf env.open_ with e | u
      · rw [unlockPdfInBrowser] at h
        simp [hld, hop] at h
      · rcases hpp : processPages env env.pages.length (List.range' 1 env.pages.length)
          with ⟨r, pr, evs⟩
        cases r with
        | error e =>
          rw [unlockPdfInBrowser] at h
          simp [hld, hop, hpp] at h
        | ok dims =>
          by_cases hsv : env.saveOk
          · have hok := processPages_ok_allOk env env.pages.length
              (List.range' 1 env.pages.length) dims (by rw [hpp])
            have hpr : pr =
                (List.range' 1 env.pages.length).map (pageEvent env.pages.length) := by
              have he := processPages_progress env env.pages.length
                (List.range' 1 env.pages.length)
              rw [hpp] at he
              simp only at he
              rw [he, runPages_allOk env _ hok.1]
            rw [unlockPdfInBrowser]
            simp [hld, hop, hpp, hsv, hpr]
          · rw [unlockPdfInBrowser] at h
            simp [hld, hop, hpp, hsv] at h
  · intro k hk1 hkN
    have hN : 0 < env.pages.length := by omega
    exact ⟨pageEvent_fst env.pages.length k, le_pageEvent_fst env.pages.length k,
      pageEvent_fst_le hN hkN, pageEvent_fst_lt_iff hN⟩

/-- Witness for C9 (amended): the three-page success scenario D — three
per-page events at 47, 63, 80, each strictly between 30 and 90, and the
progress trace ending at 100. -/
theorem C9_per_page_progress_witness :
    (unlockPdfInBrowser 4 "pw" happyEnv3).result =
      Except.ok [(20, 40), (60, 80), (100, 120)] ∧
    (unlockPdfInBrowser 4 "pw" happyEnv3).progress =
      (30, "Decrypting PDF...") ::
        (List.range' 1 happyEnv3.pages.length).map (pageEvent happyEnv3.pages.length) ++
        [(90, "Preparing unlocked PDF..."), (100, "Complete!")] ∧
    (unlockPdfInBrowser 4 "pw" happyEnv3).progress.map Prod.fst =
      [30, 47, 63, 80, 90, 100] :=
  ⟨by decide,
   (C9_per_page_progress 4 "pw" happyEnv3 [(20, 40), (60, 80), (100, 120)] (by decide)).1,
   by decide⟩

/-- Counterexample for C9 as stated: on a successful 101-page unlock the
per-page event of page 1 has percentage exactly 30, which does not lie
strictly between 30 and 90. -/
theorem C9_counterexample :
    (unlockPdfInBrowser 9 "pw" happyEnv101).result.isOk = true ∧
    (unlockPdfInBrowser 9 "pw" happyEnv101).progress.getD 1 (0, "") =
      (30, "Rendering page 1 of 101...") ∧
    ¬ 30 < ((unlockPdfInBrowser 9 "pw" happyEnv101).progress.getD 1 (0, "")).1 := by
  refine ⟨by decide, by decide, by decide⟩

/-- C7: an open failure of the Rasterize-Rebuild strategy is classified
as the wrong-password error exactly when the decoder reports a
password-related failure — the sentinel thrown by the password callback,
an exception named "PasswordException", or an error message matching the
case-insensitive pattern "password" — and every other open failure is
rethrown unchanged, distinct from the wrong-password error. -/
theorem C7_open_failure_classification (nm msg : String) :
    (loadEncryptedPdf (DecoderOutcome.raised nm msg) = Except.error UnlockError.wrongPassword ↔
      (nm = "PasswordException" ∨ containsPasswordCI msg = true)) ∧
    loadEncryptedPdf DecoderOutcome.raisedSentinel = Except.error UnlockError.wrongPassword ∧
    (¬ (nm = "PasswordException" ∨ containsPasswordCI msg = true) →
      loadEncryptedPdf (DecoderOutcome.raised nm msg) =
        Except.error (UnlockError.openError nm msg) ∧
      UnlockError.openError nm msg ≠ UnlockError.wrongPassword) ∧
    containsPasswordCI buildPasswordErrorMsg = true := by
  refine ⟨?_, rfl, ?_, by decide⟩
  · by_cases h1 : nm = "PasswordException"
    · simp [loadEncryptedPdf, h1]
    · by_cases h2 : containsPasswordCI msg = true
      · simp [loadEncryptedPdf, h1, h2]
      · simp [loadEncryptedPdf, h1, h2]
  · intro hc
    push_neg at hc
    simp [loadEncryptedPdf, hc.1, hc.2]

/-- Witness for C7: a non-password decoder failure is rethrown as-is,
and a message mentioning a password is classified as wrong-password. -/
theorem C7_open_failure_classification_witness :
    loadEncryptedPdf (DecoderOutcome.raised "UnknownErrorException" "Invalid PDF structure") =
      Except.error (UnlockError.openError "UnknownErrorException" "Invalid PDF structure") ∧
    loadEncryptedPdf (DecoderOutcome.raised "UnexpectedResponseException" "No password given") =
      Except.error UnlockError.wrongPassword :=
  ⟨((C7_open_failure_classification "UnknownErrorException" "Invalid PDF structure").2.2.1
      (by decide)).1,
   (C7_open_failure_classification "UnexpectedResponseException" "No password given").1.mpr
     (Or.inr (by decide))⟩

/-- C10: the pdf.js loader caches its first load attempt permanently per
process. The first call with the module state fresh performs the load;
any later call (window still defined) returns the first call's result —
the same cached handle on success, the same load error on failure —
leaves the module state unchanged, and performs no new load. -/
theorem C10_loader_caches_first_attempt (env env' : LoadEnv)
    (h : env.windowDefined = true) (h' : env'.windowDefined = true) :
    (loadPdfJs initialLoaderState env).2.2 = true ∧
    loadPdfJs (loadPdfJs initialLoaderState env).2.1 env' =
      ((loadPdfJs initialLoaderState env).1, (loadPdfJs initialLoaderState env).2.1, false) := by
  rcases henv : env.attemptResult with m | hdl
  · simp [loadPdfJs, initialLoaderState, h, h', henv]
  · simp [loadPdfJs, initialLoaderState, h, h', henv]

/-- Witness for C10: after a successful first load of handle 7, a later
call — even one whose fresh attempt would fail — returns the cached
handle 7 without loading. -/
theorem C10_loader_caches_first_attempt_witness :
    loadPdfJs (loadPdfJs initialLoaderState ⟨true, Except.ok 7⟩).2.1 ⟨true, Except.error "x"⟩ =
      (Except.ok 7, (loadPdfJs initialLoaderState ⟨true, Except.ok 7⟩).2.1, false) :=
  (C10_loader_caches_first_attempt ⟨true, Except.ok 7⟩ ⟨true, Except.error "x"⟩ rfl rfl).2

/-- C1 (amended): the Next.js API route attempts deletion of both
temporary paths on every exit path once validation has passed and the
paths are assigned — the finally block runs, and its unlink attempts are
part of the trace produced before the response value is returned — every
written temp file has a matching unlink attempt, and the success or
failure of either unlink never changes the primary outcome. The legacy
Express route violates the original claim (see the counterexample). -/
theorem C1_api_cleanup (req : ApiRequest) (env : ApiEnv) (hv : validReq req) :
    ApiEvent.unlinkTry (inputPathOf env) env.unlinkInputOk ∈ (POST req env).2 ∧
    ApiEvent.unlinkTry (outputPathOf env) env.unlinkOutputOk ∈ (POST req env).2 ∧
    (∀ p, ApiEvent.tempWrite p ∈ (POST req env).2 →
      ∃ b, ApiEvent.unlinkTry p b ∈ (POST req env).2) ∧
    (∀ b1 b2 b1' b2',
      (POST req { env with unlinkInputOk := b1, unlinkOutputOk := b2 }).1 =
      (POST req { env with unlinkInputOk := b1', unlinkOutputOk := b2' }).1) := by
  obtain ⟨hf, ⟨pw, hpw, hpwne⟩, hsz0, hszM⟩ := hv
  have hlen := length_ne_zero_of_ne_empty hpwne
  have hnM : ¬ req.pdfSize > MAX_FILE_SIZE := by omega
  rcases hwr : env.writeOk with _ | _
  · refine ⟨?_, ?_, ?_, ?_⟩ <;>
      simp [POST, hf, hpw, hlen, hsz0, hnM, hwr, finallyCleanup, inputPathOf,
        outputPathOf]
  · rcases hq : env.qpdf with _ | _ | s <;> rcases hrd : env.readOk with _ | _ <;>
      (refine ⟨?_, ?_, ?_, ?_⟩ <;>
        simp [POST, hf, hpw, hlen, hsz0, hnM, hwr, hq, hrd, finallyCleanup,
          inputPathOf, outputPathOf] <;>
        (rcases Bool.eq_false_or_eq_true env.unlinkInputOk with hbb | hbb <;> simp [hbb]))

/-- Witness for C1 (amended): on a concrete valid request, the unlink
attempt of the temp input path is in the trace. -/
theorem C1_api_cleanup_witness :
    ApiEvent.unlinkTry (inputPathOf (baseApiEnv QpdfOutcome.ok)) true ∈
      (POST okReq (baseApiEnv QpdfOutcome.ok)).2 :=
  (C1_api_cleanup okReq (baseApiEnv QpdfOutcome.ok)
    ⟨rfl, ⟨"hunter2", rfl, by decide⟩, by decide, by decide⟩).1

/-- Counterexample for C1 as stated: in the legacy Express route with
qpdf failing, the 400 outcome is sent before any deletion — no unlink
precedes the respond event — the output file (which the environment
records as created) is never unlinked, and when an unlink does fail the
error escapes as an uncaught exception instead of being swallowed. -/
theorem C1_counterexample :
    appPostUnlock ⟨false, true, true, true⟩ =
      [LegacyEvent.spawnTool, LegacyEvent.log, LegacyEvent.respond 400,
       LegacyEvent.unlinkDone 0] ∧
    deletedBeforeOutcome (appPostUnlock ⟨false, true, true, true⟩) 0 = false ∧
    LegacyEvent.unlinkDone 1 ∉ appPostUnlock ⟨false, true, true, true⟩ ∧
    LegacyEvent.uncaughtThrow ∈ appPostUnlock ⟨false, true, false, true⟩ := by
  decide

/-- C2 (amended): the External-Tool API route rejects an absent or empty
password, an empty document, and an oversized document with a 400
validation response and an empty effect trace — no temp file is written
and no subprocess is spawned. The Rasterize-Rebuild function performs no
such validation itself (see the counterexample). -/
theorem C2_api_validation (req : ApiRequest) (env : ApiEnv) (hf : req.pdfIsFile = true) :
    (req.password = none →
      POST req env = (⟨400, ApiBody.msg "Password is required."⟩, [])) ∧
    (req.password = some "" →
      POST req env = (⟨400, ApiBody.msg "Password is required."⟩, [])) ∧
    (∀ pw, req.password = some pw → pw ≠ "" → req.pdfSize = 0 →
      POST req env = (⟨400, ApiBody.msg "The provided PDF is empty."⟩, [])) ∧
    (∀ pw, req.password = some pw → pw ≠ "" → req.pdfSize > MAX_FILE_SIZE →
      POST req env = (⟨400, ApiBody.msg "PDF file is too large."⟩, [])) := by
  refine ⟨?_, ?_, ?_, ?_⟩
  · intro hpw
    simp [POST, hf, hpw]
  · intro hpw
    simp [POST, hf, hpw]
  · intro pw hpw hpwne hsz
    have hlen := length_ne_zero_of_ne_empty hpwne
    simp [POST, hf, hpw, hlen, hsz]
  · intro pw hpw hpwne hsz
    have hlen := length_ne_zero_of_ne_empty hpwne
    have hsz0 : ¬ req.pdfSize = 0 := by
      have : 0 < MAX_FILE_SIZE := by decide
      omega
    simp [POST, hf, hpw, hlen, hsz0, hsz]

/-- Witness for C2 (amended): a zero-byte upload is rejected with the
empty-document message and an empty trace. -/
theorem C2_api_validation_witness :
    POST ⟨true, 0, some "pw"⟩ (baseApiEnv QpdfOutcome.ok) =
      (⟨400, ApiBody.msg "The provided PDF is empty."⟩, []) :=
  (C2_api_validation ⟨true, 0, some "pw"⟩ (baseApiEnv QpdfOutcome.ok) rfl).2.2.1
    "pw" rfl (by decide) rfl

/-- Counterexample for C2 as stated: a Rasterize-Rebuild call with a
zero-byte document and an empty password does not fail with a validation
error before resources are touched — the pdf.js library is loaded, the
decoder is invoked, and the failure is the decoder's invalid-structure
error. -/
theorem C2_counterexample :
    (unlockPdfInBrowser 0 "" emptyDocEnv).events =
      [BrowserEv.libLoad, BrowserEv.decoderOpen] ∧
    (unlockPdfInBrowser 0 "" emptyDocEnv).result =
      Except.error (UnlockError.openError "InvalidPDFException" "Invalid PDF structure") := by
  decide

/-- C3: for every valid External-Tool request whose temp write succeeds,
the failure is surfaced as the tool-unavailable 500 response exactly
when the qpdf invocation fails with ENOENT, every other qpdf failure is
surfaced as a 400 wrong-password response carrying the stderr-or-generic
message, and a 400 arises exactly from the non-ENOENT tool failures —
the two classes are never confused. -/
theorem C3_tool_failure_classification (req : ApiRequest) (env : ApiEnv)
    (hv : validReq req) (hw : env.writeOk = true) :
    ((POST req env).1 =
        ⟨500, ApiBody.msg "qpdf binary not found. Set QPDF_BINARY_PATH to a valid executable."⟩ ↔
      env.qpdf = QpdfOutcome.enoent) ∧
    ((POST req env).1.status = 400 ↔ ∃ s, env.qpdf = QpdfOutcome.failed s) ∧
    (∀ s, env.qpdf = QpdfOutcome.failed s →
      (POST req env).1 = ⟨400, ApiBody.msg (failedBodyMsg s)⟩) := by
  obtain ⟨hf, ⟨pw, hpw, hpwne⟩, hsz0, hszM⟩ := hv
  have hlen := length_ne_zero_of_ne_empty hpwne
  have hnM : ¬ req.pdfSize > MAX_FILE_SIZE := by omega
  rcases hq : env.qpdf with _ | _ | s <;> rcases hrd : env.readOk with _ | _ <;>
    (refine ⟨?_, ?_, ?_⟩ <;>
      simp [POST, hf, hpw, hlen, hsz0, hnM, hw, hq, hrd])

/-- Witness for C3: on a concrete valid request, ENOENT yields the 500
tool-missing response, and a plain failure with no captured stderr
yields the 400 generic wrong-password response. -/
theorem C3_tool_failure_classification_witness :
    (POST okReq (baseApiEnv QpdfOutcome.enoent)).1 =
      ⟨500, ApiBody.msg "qpdf binary not found. Set QPDF_BINARY_PATH to a valid executable."⟩ ∧
    (POST okReq (baseApiEnv (QpdfOutcome.failed none))).1 =
      ⟨400, ApiBody.msg "Failed to unlock PDF. Wrong password or file is not encrypted."⟩ :=
  ⟨(C3_tool_failure_classification okReq (baseApiEnv QpdfOutcome.enoent)
      ⟨rfl, ⟨"hunter2", rfl, by decide⟩, by decide, by decide⟩ rfl).1.mpr rfl,
   (C3_tool_failure_classification okReq (baseApiEnv (QpdfOutcome.failed none))
      ⟨rfl, ⟨"hunter2", rfl, by decide⟩, by decide, by decide⟩ rfl).2.2 none rfl⟩

/-- C4 (amended): the caller-visible response of the External-Tool
route is independent of the supplied (non-empty) password — two requests
differing only in their passwords receive identical responses, so the
password never reaches the caller — but the route does not keep the
password out of its logs: on every tool failure (ENOENT included) the
error object passed to console.error carries the spawn arguments, so an
argument `--password=<password>` is written to the server log; and the
400 body on a non-ENOENT tool failure forwards the tool's stderr
verbatim, which can contain a raw temporary file path (see the
counterexample). -/
theorem C4_password_flow (req : ApiRequest) (env : ApiEnv) (p1 p2 : String)
    (h1 : p1 ≠ "") (h2 : p2 ≠ "") :
    ((POST { req with password := some p1 } env).1 =
      (POST { req with password := some p2 } env).1) ∧
    (req.pdfIsFile = true → req.pdfSize ≠ 0 → req.pdfSize ≤ MAX_FILE_SIZE →
      env.writeOk = true → env.qpdf ≠ QpdfOutcome.ok →
      ∃ pfx args stderr,
        ApiEvent.logError pfx args stderr ∈ (POST { req with password := some p1 } env).2 ∧
        ("--password=" ++ p1) ∈ args) := by
  have l1 := length_ne_zero_of_ne_empty h1
  have l2 := length_ne_zero_of_ne_empty h2
  constructor
  · by_cases hf : req.pdfIsFile = true
    · by_cases hsz0 : req.pdfSize = 0
      · simp [POST, hf, hsz0, l1, l2]
      · by_cases hszM : req.pdfSize > MAX_FILE_SIZE
        · simp [POST, hf, hsz0, hszM, l1, l2]
        · rcases hwr : env.writeOk with _ | _
          · simp [POST, hf, hsz0, hszM, l1, l2, hwr]
          · rcases hq : env.qpdf with _ | _ | s <;> rcases hrd : env.readOk with _ | _ <;>
              simp [POST, hf, hsz0, hszM, l1, l2, hwr, hq, hrd]
    · simp [POST, hf]
  · intro hf hsz0 hszM hw hq
    have hnM : ¬ req.pdfSize > MAX_FILE_SIZE := by omega
    rcases hqc : env.qpdf with _ | _ | s
    · exact absurd hqc hq
    · refine ⟨"qpdf binary not found:",
        ["--password=" ++ p1, "--decrypt", inputPathOf env, outputPathOf env], none, ?_, ?_⟩
      · simp [POST, hf, l1, hsz0, hnM, hw, hqc]
      · simp
    · refine ⟨"Failed to unlock PDF:",
        ["--password=" ++ p1, "--decrypt", inputPathOf env, outputPathOf env], s, ?_, ?_⟩
      · simp [POST, hf, l1, hsz0, hnM, hw, hqc]
      · simp

/-- Witness for C4 (amended): two concrete requests differing only in
the password receive identical failure responses, yet the password
"alpha" is part of the argument list of a logged error. -/
theorem C4_password_flow_witness :
    ((POST { okReq with password := some "alpha" } (baseApiEnv (QpdfOutcome.failed none))).1 =
      (POST { okReq with password := some "beta" } (baseApiEnv (QpdfOutcome.failed none))).1) ∧
    (∃ pfx args stderr,
      ApiEvent.logError pfx args stderr ∈
        (POST { okReq with password := some "alpha" } (baseApiEnv (QpdfOutcome.failed none))).2 ∧
      ("--password=" ++ "alpha") ∈ args) :=
  ⟨(C4_password_flow okReq (baseApiEnv (QpdfOutcome.failed none)) "alpha" "beta"
      (by decide) (by decide)).1,
   (C4_password_flow okReq (baseApiEnv (QpdfOutcome.failed none)) "alpha" "beta"
      (by decide) (by decide)).2 rfl (by decide) (by decide) rfl (by decide)⟩

/-- Counterexample for C4 as stated: a failing unlock call (password
"hunter2") whose caller-visible 400 body is qpdf's stderr containing the
raw temporary input file path, and whose logged error carries the spawn
argument "--password=hunter2", so the password is written to the log. -/
theorem C4_counterexample :
    (POST okReq leakEnv).1.status = 400 ∧
    (POST okReq leakEnv).1.body =
      ApiBody.msg "qpdf: /tmp/pdf-input-123e4567.pdf: invalid password" ∧
    strContains "qpdf: /tmp/pdf-input-123e4567.pdf: invalid password"
      (inputPathOf leakEnv) = true ∧
    ApiEvent.logError "Failed to unlock PDF:"
        ["--password=hunter2", "--decrypt", "/tmp/pdf-input-123e4567.pdf",
         "/tmp/pdf-output-89ab.pdf"]
        (some "qpdf: /tmp/pdf-input-123e4567.pdf: invalid password") ∈
      (POST okReq leakEnv).2 ∧
    strContains "--password=hunter2" "hunter2" = true := by
  decide

end PdfToolbox
